import Mathlib

/-!
# Verification of the LRCLIB Lyrics External Save plugin

Shallow embedding of the two Python source files of the repository
`Harmonese/lrclib_lyrics_external_save`:

* `src/lrclib_lyrics_external_save/__init__.py`  (embedded in namespace `V1`)
* `src/plugins/lrclib_lyrics_external_save.py`   (embedded in namespace `V2`)

The plugin pipeline is: read a metadata snapshot, build a lookup query,
perform one HTTP GET against LRCLIB, parse the JSON response, and write a
sidecar `.lrc`/`.txt` file next to the audio file.  Python-level behaviours
that the claims depend on (string truthiness, `int()` parsing, `str.split`,
`dict.get`, `os.path` functions, try/except boundaries) are modelled
explicitly below.  Exceptions are modelled with `Except Unit`: a value
`Except.error ()` stands for a Python exception escaping the modelled
piece of code.
-/

namespace Lrclib

/-! ## Python string / int primitives -/

/-- The ASCII whitespace characters stripped by Python `int(str)`
(`str.strip` also strips some further Unicode whitespace, which no claim
exercises and which is not modelled). -/
def isPyWhitespace (c : Char) : Bool :=
  c = ' ' || c = '\t' || c = '\n' || c = '\r' || c = '\x0b' || c = '\x0c'

/-- Strip leading and trailing whitespace from a character list, as Python
`str.strip()` does before `int()` parses the digits. -/
def pyStrip (cs : List Char) : List Char :=
  ((cs.dropWhile isPyWhitespace).reverse.dropWhile isPyWhitespace).reverse

/-- Numeric value of a decimal digit character. -/
def digitVal (c : Char) : Nat :=
  c.toNat - 48

/-- Parse the remaining characters of a Python base-10 integer literal:
decimal digits, with single underscores allowed between digits
(CPython `int("1_0") = 10`, while `int("1__0")`, `int("1_")` raise).
The flag records that the previous character was an underscore, which
must be followed by a digit. -/
def pyDigitsLoop : List Char → Nat → Bool → Option Nat
  | [], acc, afterUnderscore => if afterUnderscore then none else some acc
  | c :: rest, acc, afterUnderscore =>
    if c.isDigit then pyDigitsLoop rest (acc * 10 + digitVal c) false
    else if afterUnderscore then none
    else if c = '_' then pyDigitsLoop rest acc true
    else none

/-- Parse an unsigned Python base-10 integer literal: at least one digit,
then digits and single separating underscores. -/
def pyIntCore (cs : List Char) : Option Nat :=
  match cs with
  | [] => none
  | c :: rest => if c.isDigit then pyDigitsLoop rest (digitVal c) false else none

/-- Optional single sign, then an unsigned integer literal. -/
def pyIntSigned : List Char → Option Int
  | [] => none
  | c :: rest =>
    if c = '+' then (pyIntCore rest).map (fun n => (n : Int))
    else if c = '-' then (pyIntCore rest).map (fun n => -(n : Int))
    else (pyIntCore (c :: rest)).map (fun n => (n : Int))

/-- Python `int(s)` on a string argument (base 10): strip whitespace, then
an optional single sign, then an unsigned integer literal.  Returns `none`
where CPython raises `ValueError`. -/
def pyInt (s : String) : Option Int :=
  pyIntSigned (pyStrip s.data)

/-- Python `s.split(sep)` for a single-character separator, accumulator
form: splits at every occurrence, keeps empty parts
(`"".split(":") = [""]`, `":".split(":") = ["", ""]`). -/
def pySplitAux (sep : Char) : List Char → List Char → List (List Char)
  | [], acc => [acc.reverse]
  | c :: rest, acc =>
    if c = sep then acc.reverse :: pySplitAux sep rest []
    else pySplitAux sep rest (c :: acc)

/-- Python `s.split(":")`, as used on the `~length` tag. -/
def pySplitColon (s : String) : List String :=
  (pySplitAux ':' s.data []).map (fun cs => String.mk cs)

/-- Decimal value of a digit-character list (most significant first). -/
def decVal (cs : List Char) : Nat :=
  cs.foldl (fun acc c => acc * 10 + digitVal c) 0

/-! ## Metadata snapshot and lookup query -/

/-- The four metadata fields read from Picard's metadata object.
`md.get(key)` yields `None` when the key is absent, modelled by `none`;
`length` holds the `~length` tag. -/
structure Snapshot where
  title : Option String
  artist : Option String
  album : Option String
  length : Option String

/-- Python truthiness of an optional string (`None` and `""` are falsy). -/
def truthyStr : Option String → Bool
  | none => false
  | some s => if s = "" then false else true

/-- Python truthiness of an optional integer (`None` and `0` are falsy;
negative integers are truthy). -/
def truthyInt : Option Int → Bool
  | none => false
  | some n => if n = 0 then false else true

/-- The LRCLIB query dictionary built by both copies of the plugin. -/
structure Query where
  track_name : String
  artist_name : String
  album_name : String
  duration : Int
deriving DecidableEq, Repr

/-- The `~length` parsing step shared by both copies, i.e. the body of the
`try:` in `_build_query_from_snapshot` / `_build_query_from_file`:
split on `:`, require exactly two parts, parse each with `int()`,
duration = minutes*60 + seconds.  Any `int()` failure is caught by the
surrounding `except`, leaving the duration `None` (`none`). -/
def parseParts : List String → Option Int
  | [m, s] =>
    match pyInt m, pyInt s with
    | some minutes, some seconds => some (minutes * 60 + seconds)
    | _, _ => none
  | _ => none

/-- See `parseParts`; `parseLength` performs the split and dispatches on
the part count. -/
def parseLength (lengthStr : String) : Option Int :=
  parseParts (pySplitColon lengthStr)

/-- The duration computed from a snapshot: `duration = None`, then
`if length_str:` (truthy, i.e. present and non-empty) attempt the parse. -/
def snapDuration (snap : Snapshot) : Option Int :=
  match snap.length with
  | none => none
  | some ls => if ls = "" then none else parseLength ls

namespace V1

/-- `_build_query_from_snapshot` of `src/lrclib_lyrics_external_save/__init__.py`:
returns `None` unless `title and artist and duration` is truthy, else the
query dict with `album or ""`. -/
def build_query_from_snapshot (snap : Snapshot) : Option Query :=
  if truthyStr snap.title && truthyStr snap.artist && truthyInt (snapDuration snap) then
    some
      { track_name := snap.title.getD ""
        artist_name := snap.artist.getD ""
        album_name := if truthyStr snap.album then snap.album.getD "" else ""
        duration := (snapDuration snap).getD 0 }
  else none

end V1

namespace V2

/-- `_build_query_from_file` of `src/plugins/lrclib_lyrics_external_save.py`,
applied to the snapshot of the four fields it reads from `file.metadata`.
Its body is the same computation as the V1 builder. -/
def build_query_from_file (md : Snapshot) : Option Query :=
  if truthyStr md.title && truthyStr md.artist && truthyInt (snapDuration md) then
    some
      { track_name := md.title.getD ""
        artist_name := md.artist.getD ""
        album_name := if truthyStr md.album then md.album.getD "" else ""
        duration := (snapDuration md).getD 0 }
  else none

end V2

/-! ## JSON values and the LRCLIB response parser -/

/-- JSON values as produced by Python's `json.loads`.  Numbers are
modelled as integers (the LRCLIB fields the code inspects, notably `id`,
are integral; floating-point payloads are not modelled). -/
inductive JValue where
  | jnull
  | jbool (b : Bool)
  | jnum (n : Int)
  | jstr (s : String)
  | jarr (items : List JValue)
  | jobj (fields : List (String × JValue))

/-- Python truthiness of a decoded JSON value (`None`, `False`, `0`, `""`,
`[]`, `{}` are falsy). -/
def jTruthy : JValue → Bool
  | JValue.jnull => false
  | JValue.jbool b => b
  | JValue.jnum n => if n = 0 then false else true
  | JValue.jstr s => if s = "" then false else true
  | JValue.jarr items => !items.isEmpty
  | JValue.jobj fields => !fields.isEmpty

/-- `obj.get(key)` on a decoded JSON object.  `json.loads` keeps the last
binding of a duplicated key, hence the left fold. -/
def jGet (fields : List (String × JValue)) (key : String) : Option JValue :=
  fields.foldl (fun acc kv => if kv.1 = key then some kv.2 else acc) none

/-- Truthiness of a `dict.get` result (`None` for an absent key is falsy). -/
def optTruthy : Option JValue → Bool
  | none => false
  | some v => jTruthy v

/-- `obj.get(key)` followed by the truthiness test `if obj.get(key):`. -/
def getTruthy (fields : List (String × JValue)) (key : String) : Bool :=
  optTruthy (jGet fields key)

/-- Whether a JSON value is a string. -/
def jIsStr : JValue → Bool
  | JValue.jstr _ => true
  | _ => false

/-- Whether a JSON value is an object (`isinstance(obj, dict)`). -/
def jIsObj : JValue → Bool
  | JValue.jobj _ => true
  | _ => false

/-- Whether a JSON value is an array (`isinstance(obj, list)`). -/
def jIsArr : JValue → Bool
  | JValue.jarr _ => true
  | _ => false

namespace V1

/-- The object part of `_fetch_lyrics_from_lrclib`
(`src/lrclib_lyrics_external_save/__init__.py`), applied after the
array unwrapping:

    if not isinstance(obj, dict) or not obj.get("id"): return None, None
    synced = obj.get("syncedLyrics"); plain = obj.get("plainLyrics")
    if synced: return synced, True
    if plain: return plain, False
    return None, None

`none` models the `(None, None)` result. -/
def parse_obj (v : JValue) : Option (JValue × Bool) :=
  match v with
  | JValue.jobj fields =>
    if getTruthy fields "id" then
      if optTruthy (jGet fields "syncedLyrics") then
        some ((jGet fields "syncedLyrics").getD JValue.jnull, true)
      else if optTruthy (jGet fields "plainLyrics") then
        some ((jGet fields "plainLyrics").getD JValue.jnull, false)
      else none
    else none
  | _ => none

/-- The response-shape part of `_fetch_lyrics_from_lrclib`: a decoded list
is replaced by its first element (empty list means `(None, None)`), then
the object part runs. -/
def parse_body (v : JValue) : Option (JValue × Bool) :=
  match v with
  | JValue.jarr [] => none
  | JValue.jarr (x :: _) => parse_obj x
  | _ => parse_obj v

end V1

namespace V2

/-- The object part of `_fetch_lyrics_from_lrclib` in
`src/plugins/lrclib_lyrics_external_save.py`; textually the same logic as
the V1 copy. -/
def parse_obj (v : JValue) : Option (JValue × Bool) :=
  match v with
  | JValue.jobj fields =>
    if getTruthy fields "id" then
      if optTruthy (jGet fields "syncedLyrics") then
        some ((jGet fields "syncedLyrics").getD JValue.jnull, true)
      else if optTruthy (jGet fields "plainLyrics") then
        some ((jGet fields "plainLyrics").getD JValue.jnull, false)
      else none
    else none
  | _ => none

/-- The response-shape part of the V2 `_fetch_lyrics_from_lrclib`. -/
def parse_body (v : JValue) : Option (JValue × Bool) :=
  match v with
  | JValue.jarr [] => none
  | JValue.jarr (x :: _) => parse_obj x
  | _ => parse_obj v

end V2

/-! ## The HTTP fetch, with the try/except boundary of the source -/

/-- Outcome of the `urlopen` + `resp.read()` + decode + `json.loads`
stage, chosen by the environment (server/network): a transport-level
exception inside the `try:` (connection error, timeout, TLS failure,
read failure), or a body, which either fails `json.loads` (`none`) or
decodes to a JSON value. -/
inductive HttpOutcome where
  | transportError
  | response (body : Option JValue)

/-- Whether the outcome raised inside the `try:` or failed to decode as
JSON, i.e. the outcomes the source maps to `return None, None`. -/
def HttpOutcome.isFailure : HttpOutcome → Bool
  | HttpOutcome.transportError => true
  | HttpOutcome.response none => true
  | HttpOutcome.response (some _) => false

/-- Exception oracle for `_fetch_lyrics_from_lrclib`.  In both source
files the statements `url = ... urlencode(query)` and
`ctx = ssl._create_unverified_context()` execute BEFORE the `try:` block,
so an exception raised by either propagates out of the function; the two
booleans say whether the Python runtime raises there. -/
structure FetchEnv where
  urlencodeRaises : Bool
  sslContextRaises : Bool
  outcome : HttpOutcome

namespace V1

/-- Timeout passed to `urlopen` in `src/lrclib_lyrics_external_save/__init__.py`. -/
def requestTimeout : Nat := 15

/-- `LRCLIB_URL` constant of the V1 copy (trailing `?` included). -/
def lrclibUrl : String := "https://lrclib.net/api/get?"

/-- Request URL built by the V1 copy: `LRCLIB_URL + urlencode(query)`;
`enc` stands for the `urlencode(query)` result. -/
def requestUrl (enc : String) : String := lrclibUrl ++ enc

/-- `_fetch_lyrics_from_lrclib` of the V1 copy.  `Except.error ()` models
an exception escaping the function: only the URL construction and the SSL
context creation can produce it, since everything from `Request(...)`
onwards sits inside `try: ... except Exception: return None, None` blocks.
`Except.ok none` models the `(None, None)` result. -/
def fetch_lyrics_from_lrclib (_q : Query) (env : FetchEnv) :
    Except Unit (Option (JValue × Bool)) :=
  if env.urlencodeRaises then Except.error ()
  else if env.sslContextRaises then Except.error ()
  else
    match env.outcome with
    | HttpOutcome.transportError => Except.ok none
    | HttpOutcome.response none => Except.ok none
    | HttpOutcome.response (some v) => Except.ok (parse_body v)

end V1

namespace V2

/-- Timeout passed to `urlopen` in `src/plugins/lrclib_lyrics_external_save.py`. -/
def requestTimeout : Nat := 10

/-- `LRCLIB_URL` constant of the V2 copy (no trailing `?`). -/
def lrclibUrl : String := "https://lrclib.net/api/get"

/-- Request URL built by the V2 copy: `LRCLIB_URL + "?" + urlencode(query)`. -/
def requestUrl (enc : String) : String := lrclibUrl ++ "?" ++ enc

/-- `_fetch_lyrics_from_lrclib` of the V2 copy; same try/except boundary
as the V1 copy (URL and SSL context built before the `try:`). -/
def fetch_lyrics_from_lrclib (_q : Query) (env : FetchEnv) :
    Except Unit (Option (JValue × Bool)) :=
  if env.urlencodeRaises then Except.error ()
  else if env.sslContextRaises then Except.error ()
  else
    match env.outcome with
    | HttpOutcome.transportError => Except.ok none
    | HttpOutcome.response none => Except.ok none
    | HttpOutcome.response (some v) => Except.ok (parse_body v)

end V2

/-! ## Path handling and the sidecar writer -/

/-- CPython `posixpath.split(p)`: the tail is everything after the last
`/`; the head is everything up to and including it, with trailing slashes
stripped unless the head consists only of slashes. -/
def posixSplit (p : String) : String × String :=
  let cs := p.data
  let tailChars := (cs.reverse.takeWhile (fun c => !(c = '/'))).reverse
  let headChars := (cs.reverse.dropWhile (fun c => !(c = '/'))).reverse
  let headStripped :=
    if !headChars.isEmpty && headChars.any (fun c => !(c = '/')) then
      (headChars.reverse.dropWhile (fun c => c = '/')).reverse
    else headChars
  (String.mk headStripped, String.mk tailChars)

/-- CPython `posixpath.splitext` on a basename (the source always applies
it to the tail of `posixpath.split`, which contains no `/`): split at the
last dot, except when every character before that dot is itself a dot
(leading-dot files such as `.bashrc` keep their name whole). -/
def posixSplitextBase (name : String) : String × String :=
  let cs := name.data
  let revAfter := cs.reverse.takeWhile (fun c => !(c = '.'))
  if revAfter.length = cs.length then (name, "")
  else
    let cut := cs.length - revAfter.length - 1
    let before := cs.take cut
    let extChars := cs.drop cut
    if before.any (fun c => !(c = '.')) then (String.mk before, String.mk extChars)
    else (name, "")

/-- `s.startswith("/")`. -/
def startsWithSlash (s : String) : Bool :=
  match s.data with
  | [] => false
  | c :: _ => c = '/'

/-- `s.endswith("/")`. -/
def endsWithSlash (s : String) : Bool :=
  match s.data.getLast? with
  | none => false
  | some c => c = '/'

/-- CPython `posixpath.join(a, b)` for the two-argument call in the
sidecar writers. -/
def posixJoin (a b : String) : String :=
  if startsWithSlash b then b
  else if a = "" || endsWithSlash a then a ++ b
  else a ++ "/" ++ b

/-- The sidecar path computed by `_write_sidecar_for_path` /
`_write_sidecar_for_file`:

    directory, fname = os.path.split(audio_path)
    stem, _ = os.path.splitext(fname)
    ext = ".lrc" if is_synced else ".txt"
    out_path = os.path.join(directory, stem + ext)
-/
def sidecarPath (audio_path : String) (is_synced : Bool) : String :=
  let split := posixSplit audio_path
  let stemExt := posixSplitextBase split.2
  let ext := if is_synced then ".lrc" else ".txt"
  posixJoin split.1 (stemExt.1 ++ ext)

/-- A filesystem: contents of each path, `none` when no file exists. -/
def FS : Type := String → Option String

/-- The sidecar writers (`_write_sidecar_for_path` in V1,
`_write_sidecar_for_file` in V2, which reads the same `file.filename`):
`open(out_path, "w")` + `f.write(lyrics)` replaces the contents at the
derived path.  `lyrics` is whatever value the fetch returned; `f.write`
raises `TypeError` on a non-string, and `writeRaises` says whether the
I/O itself raises; either exception is caught INSIDE this function
(`except Exception: log`), modelled as leaving the filesystem unchanged
(truncation by a partially failed `open`/`write` is not modelled). -/
def write_sidecar (fs : FS) (audio_path : String) (lyrics : JValue)
    (is_synced : Bool) (writeRaises : Bool) : FS :=
  match lyrics, writeRaises with
  | JValue.jstr s, false =>
    fun p => if p = sidecarPath audio_path is_synced then some s else fs p
  | _, _ => fs

/-! ## The worker / handler orchestration of both copies -/

/-- Blocking operations the pipeline can perform, used to record which
thread executes what. -/
inductive Op where
  | netCall
  | writeAttempt (path : String) (content : JValue)
  | spawnWorker (daemon : Bool)

/-- Boolean discriminators for `Op` (no decidable equality is needed). -/
def Op.isNetCall : Op → Bool
  | Op.netCall => true
  | _ => false

def Op.isWriteAttempt : Op → Bool
  | Op.writeAttempt _ _ => true
  | _ => false

/-- Whether an operation list contains the network call. -/
def opsHasNet (ops : List Op) : Bool :=
  ops.any Op.isNetCall

/-- Whether an operation list contains a sidecar write attempt. -/
def opsHasWrite (ops : List Op) : Bool :=
  ops.any Op.isWriteAttempt

/-- Exception oracle for the pipeline stages beyond the fetch. -/
structure RunEnv where
  fetchEnv : FetchEnv
  writeRaises : Bool

/-- Whether anything from the query fetch through the sidecar write
fails: an exception before the fetch's `try:`, a transport or JSON
failure, or a failing write. -/
def fetchWriteRaise (renv : RunEnv) : Bool :=
  renv.fetchEnv.urlencodeRaises || renv.fetchEnv.sslContextRaises ||
  renv.fetchEnv.outcome.isFailure || renv.writeRaises

/-- Exception oracle for the host-facing handler stages:
reading `file.filename`, reading `file.metadata`, starting the thread. -/
structure HostEnv where
  filenameRaises : Bool
  metadataRaises : Bool
  threadStartRaises : Bool

/-- The host-provided file reference: its final path and the metadata
snapshot the handler reads from it. -/
structure FileRef where
  filename : String
  md : Snapshot

/-- `except Exception:` around a computation: the fallback value is
returned when the computation raises. -/
def pyCatch {α : Type} (x : Except Unit α) (fallback : α) : α :=
  match x with
  | Except.ok a => a
  | Except.error _ => fallback

/-- What a handler invocation did: the operations run on the caller's
(host application's) thread, the operations run on a spawned background
thread, and the resulting filesystem. -/
structure HandlerResult where
  callerOps : List Op
  spawnedOps : List Op
  fs : FS

/-- Caller-thread operations of a handler invocation that returned
normally (`[]` for an escaped exception, which cannot happen per C7). -/
def handlerCallerOps (r : Except Unit HandlerResult) : List Op :=
  match r with
  | Except.ok hr => hr.callerOps
  | Except.error _ => []

/-- Spawned-thread operations of a handler invocation. -/
def handlerSpawnedOps (r : Except Unit HandlerResult) : List Op :=
  match r with
  | Except.ok hr => hr.spawnedOps
  | Except.error _ => []

/-- Filesystem after a handler invocation (unchanged for an escaped
exception). -/
def handlerFs (fs : FS) (r : Except Unit HandlerResult) : FS :=
  match r with
  | Except.ok hr => hr.fs
  | Except.error _ => fs

namespace V1

/-- Body of `_worker_for_file` (inside its `try:`): build the query
(`if not query: return`), fetch (`if not lyrics: ... return`), write the
sidecar.  An `Except.error` is an exception reaching the worker's own
`except` — only the fetch's pre-`try` statements can produce one. -/
def worker_body (fs : FS) (audio_path : String) (snap : Snapshot)
    (renv : RunEnv) : Except Unit (List Op × FS) :=
  match build_query_from_snapshot snap with
  | none => Except.ok ([], fs)
  | some q =>
    match fetch_lyrics_from_lrclib q renv.fetchEnv with
    | Except.error e => Except.error e
    | Except.ok none => Except.ok ([Op.netCall], fs)
    | Except.ok (some (lyrics, is_synced)) =>
      if jTruthy lyrics then
        Except.ok
          ([Op.netCall, Op.writeAttempt (sidecarPath audio_path is_synced) lyrics],
           write_sidecar fs audio_path lyrics is_synced renv.writeRaises)
      else Except.ok ([Op.netCall], fs)

/-- `_worker_for_file`: the body is wrapped in `try: ... except Exception:
log`, so the worker itself never raises. -/
def worker_for_file (fs : FS) (audio_path : String) (snap : Snapshot)
    (renv : RunEnv) : List Op × FS :=
  pyCatch (worker_body fs audio_path snap renv) ([], fs)

/-- `lrclib_simple_file_post_save` of the V1 copy: three consecutive
`try/except` blocks read `file.filename`, snapshot `file.metadata`, and
start a daemon worker thread; each failure logs and returns.  The result
is `Except.ok` iff no exception escapes to the host. -/
def handler (f : FileRef) (henv : HostEnv) (renv : RunEnv) (fs : FS) :
    Except Unit HandlerResult :=
  if henv.filenameRaises then Except.ok ⟨[], [], fs⟩
  else if henv.metadataRaises then Except.ok ⟨[], [], fs⟩
  else if henv.threadStartRaises then Except.ok ⟨[], [], fs⟩
  else
    let work := worker_for_file fs f.filename f.md renv
    Except.ok ⟨[Op.spawnWorker true], work.1, work.2⟩

/-- Exception-oracle flags the V1 save path consults. -/
def anyRaise (henv : HostEnv) (renv : RunEnv) : Bool :=
  henv.filenameRaises || henv.metadataRaises || henv.threadStartRaises ||
  fetchWriteRaise renv

end V1

namespace V2

/-- The pipeline inside the single `try:` of the V2
`lrclib_simple_file_post_save`: build the query, fetch, write — all on
the caller's thread (the V2 copy starts no thread). -/
def pipeline (fs : FS) (audio_path : String) (md : Snapshot)
    (renv : RunEnv) : Except Unit (List Op × FS) :=
  match build_query_from_file md with
  | none => Except.ok ([], fs)
  | some q =>
    match fetch_lyrics_from_lrclib q renv.fetchEnv with
    | Except.error e => Except.error e
    | Except.ok none => Except.ok ([Op.netCall], fs)
    | Except.ok (some (lyrics, is_synced)) =>
      if jTruthy lyrics then
        Except.ok
          ([Op.netCall, Op.writeAttempt (sidecarPath audio_path is_synced) lyrics],
           write_sidecar fs audio_path lyrics is_synced renv.writeRaises)
      else Except.ok ([Op.netCall], fs)

/-- Body of the V2 handler's `try:`: the first statement logs
`file.filename`, then `_build_query_from_file` reads `file.metadata`,
then the pipeline runs inline. -/
def handler_body (f : FileRef) (henv : HostEnv) (renv : RunEnv) (fs : FS) :
    Except Unit (List Op × FS) :=
  if henv.filenameRaises then Except.error ()
  else if henv.metadataRaises then Except.error ()
  else pipeline fs f.filename f.md renv

/-- `lrclib_simple_file_post_save` of the V2 copy: the whole body sits in
one `try/except`, so the handler returns normally in every case, but all
its operations run on the caller's thread and nothing is spawned. -/
def handler (f : FileRef) (henv : HostEnv) (renv : RunEnv) (fs : FS) :
    Except Unit HandlerResult :=
  match handler_body f henv renv fs with
  | Except.ok r => Except.ok ⟨r.1, [], r.2⟩
  | Except.error _ => Except.ok ⟨[], [], fs⟩

/-- Exception-oracle flags the V2 save path consults (the V2 copy starts
no thread, so the thread-start flag is not among them). -/
def anyRaise (henv : HostEnv) (renv : RunEnv) : Bool :=
  henv.filenameRaises || henv.metadataRaises || fetchWriteRaise renv

end V2

/-! ## Spec-side definitions used to state the claims -/

/-- Spec-side, from the words of the claims: a `~length` string of "the
well-formed mm:ss shape" — exactly one colon separating two non-empty
all-digit parts. -/
def isMMSSShape (s : String) : Bool :=
  match pySplitColon s with
  | [m, sec] =>
    !m.isEmpty && !sec.isEmpty &&
    m.data.all Char.isDigit && sec.data.all Char.isDigit
  | _ => false

/-- A `dict.get` view of a lyrics field that conforms to the documented
wire protocol: absent, JSON `null`, or a string. -/
def fieldIsStrOrAbsent (fields : List (String × JValue)) (key : String) : Bool :=
  match jGet fields key with
  | none => true
  | some JValue.jnull => true
  | some (JValue.jstr _) => true
  | some _ => false

/-- A response body whose lyrics fields conform to the documented wire
protocol (string or absent/null), on the object the parser inspects. -/
def wireStringsObj (v : JValue) : Bool :=
  match v with
  | JValue.jobj fields =>
    fieldIsStrOrAbsent fields "syncedLyrics" && fieldIsStrOrAbsent fields "plainLyrics"
  | _ => true

/-- Wire-protocol conformance of a whole decoded body (an array is
represented by its first element, the one the parser inspects). -/
def wireStrings (v : JValue) : Bool :=
  match v with
  | JValue.jarr [] => true
  | JValue.jarr (x :: _) => wireStringsObj x
  | _ => wireStringsObj v

/-- Whether a computation returned normally (no exception escaped). -/
def exceptOk {α : Type} : Except Unit α → Bool
  | Except.ok _ => true
  | Except.error _ => false

/-! ## Concrete instances used by witnesses and counterexamples -/

/-- The query of the spec's end-to-end scenario. -/
def sampleQuery : Query := ⟨"X", "Y", "Z", 225⟩

/-- A response object carrying both kinds of lyrics. -/
def sampleFields : List (String × JValue) :=
  [("id", JValue.jnum 1), ("syncedLyrics", JValue.jstr "sy"), ("plainLyrics", JValue.jstr "pl")]

/-- A response body carrying both kinds of lyrics. -/
def sampleBody : JValue := JValue.jobj sampleFields

/-- The audio file of the spec's sidecar example, with full metadata. -/
def sampleFile : FileRef :=
  ⟨"/music/a/Song.flac", ⟨some "X", some "Y", some "Z", some "3:45"⟩⟩

/-- A host environment in which no host accessor raises. -/
def quietHost : HostEnv := ⟨false, false, false⟩

/-- A fetch environment that succeeds with `sampleBody`. -/
def okFetch : FetchEnv := ⟨false, false, HttpOutcome.response (some sampleBody)⟩

/-- A run environment with no failures at all. -/
def okRun : RunEnv := ⟨okFetch, false⟩

/-- The empty filesystem. -/
def emptyFS : FS := fun _ => none

/-- A filesystem that already has a file at the sample sidecar path. -/
def oldFS : FS :=
  fun p => if p = "/music/a/Song.lrc" then some "old" else none

/-- A response body whose `syncedLyrics` field is a (truthy) number, not
a string. -/
def nonStrBody : JValue :=
  JValue.jobj [("id", JValue.jnum 1), ("syncedLyrics", JValue.jnum 42)]

/-- A fetch environment that succeeds with `nonStrBody`. -/
def nonStrFetch : FetchEnv := ⟨false, false, HttpOutcome.response (some nonStrBody)⟩

/-- A second audio file with full metadata. -/
def secondFile : FileRef :=
  ⟨"/music/b/Tune.mp3", ⟨some "T", some "A", none, some "4:05"⟩⟩

/-- A run environment that succeeds with `sampleBody` (distinct constant
for the second scenario). -/
def secondRun : RunEnv := ⟨⟨false, false, HttpOutcome.response (some sampleBody)⟩, false⟩

/-- A fetch environment in which the SSL-context creation raises. -/
def sslFailFetch : FetchEnv := ⟨false, true, HttpOutcome.response none⟩

/-! ## Lemmas on the Python primitives -/

theorem isPyWhitespace_of_isDigit {c : Char} (h : c.isDigit = true) :
    isPyWhitespace c = false := by
  cases hw : isPyWhitespace c
  · rfl
  · exfalso
    simp only [isPyWhitespace, Bool.or_eq_true, decide_eq_true_eq] at hw
    rcases hw with ((((h1 | h1) | h1) | h1) | h1) | h1 <;> subst h1 <;>
      exact absurd h (by decide)

theorem ne_colon_of_isDigit {c : Char} (h : c.isDigit = true) : c ≠ ':' := by
  rintro rfl
  exact absurd h (by decide)

theorem ne_plus_of_isDigit {c : Char} (h : c.isDigit = true) : c ≠ '+' := by
  rintro rfl
  exact absurd h (by decide)

theorem ne_minus_of_isDigit {c : Char} (h : c.isDigit = true) : c ≠ '-' := by
  rintro rfl
  exact absurd h (by decide)

theorem pyDigitsLoop_digits : ∀ (cs : List Char) (acc : Nat),
    cs.all Char.isDigit = true →
    pyDigitsLoop cs acc false = some (cs.foldl (fun a c => a * 10 + digitVal c) acc) := by
  intro cs
  induction cs with
  | nil => intro acc _; rfl
  | cons c rest ih =>
    intro acc h
    simp only [List.all_cons, Bool.and_eq_true] at h
    simp only [pyDigitsLoop]
    rw [if_pos h.1, List.foldl_cons]
    exact ih _ h.2

theorem pyIntCore_digits {cs : List Char} (hne : cs ≠ [])
    (h : cs.all Char.isDigit = true) : pyIntCore cs = some (decVal cs) := by
  cases cs with
  | nil => exact absurd rfl hne
  | cons c rest =>
    simp only [List.all_cons, Bool.and_eq_true] at h
    simp only [pyIntCore]
    rw [if_pos h.1, pyDigitsLoop_digits rest (digitVal c) h.2]
    simp [decVal]

theorem dropWhile_ws_of_digits {cs : List Char} (h : cs.all Char.isDigit = true) :
    cs.dropWhile isPyWhitespace = cs := by
  cases cs with
  | nil => rfl
  | cons c rest =>
    simp only [List.all_cons, Bool.and_eq_true] at h
    rw [List.dropWhile_cons, isPyWhitespace_of_isDigit h.1]
    simp

theorem pyStrip_digits {cs : List Char} (h : cs.all Char.isDigit = true) :
    pyStrip cs = cs := by
  unfold pyStrip
  rw [dropWhile_ws_of_digits h]
  rw [dropWhile_ws_of_digits (by simpa using h)]
  exact List.reverse_reverse cs

theorem pyInt_digits {cs : List Char} (hne : cs ≠ [])
    (h : cs.all Char.isDigit = true) :
    pyInt (String.mk cs) = some ((decVal cs : Int)) := by
  unfold pyInt
  have hdata : (String.mk cs).data = cs := rfl
  rw [hdata, pyStrip_digits h]
  cases cs with
  | nil => exact absurd rfl hne
  | cons c rest =>
    simp only [List.all_cons, Bool.and_eq_true] at h
    simp only [pyIntSigned]
    rw [if_neg (ne_plus_of_isDigit h.1), if_neg (ne_minus_of_isDigit h.1),
      pyIntCore_digits (by simp) (by simp [h.1, h.2])]
    rfl

theorem pySplitAux_no_sep (sep : Char) : ∀ (ys acc : List Char),
    (∀ c ∈ ys, c ≠ sep) → pySplitAux sep ys acc = [acc.reverse ++ ys] := by
  intro ys
  induction ys with
  | nil => intro acc _; simp [pySplitAux]
  | cons c rest ih =>
    intro acc h
    simp only [pySplitAux]
    rw [if_neg (h c (List.mem_cons_self c rest)),
      ih (c :: acc) (fun d hd => h d (List.mem_cons_of_mem _ hd))]
    simp

theorem pySplitAux_sep (sep : Char) (ys : List Char) : ∀ (xs acc : List Char),
    (∀ c ∈ xs, c ≠ sep) →
    pySplitAux sep (xs ++ sep :: ys) acc = (acc.reverse ++ xs) :: pySplitAux sep ys [] := by
  intro xs
  induction xs with
  | nil =>
    intro acc _
    simp only [List.nil_append]
    simp only [pySplitAux]
    simp
  | cons c rest ih =>
    intro acc h
    simp only [List.cons_append]
    simp only [pySplitAux]
    rw [if_neg (h c (List.mem_cons_self c rest)),
      ih (c :: acc) (fun d hd => h d (List.mem_cons_of_mem _ hd))]
    simp

theorem pySplitColon_pair {m s : List Char} (hm : ∀ c ∈ m, c ≠ ':')
    (hs : ∀ c ∈ s, c ≠ ':') :
    pySplitColon (String.mk (m ++ ':' :: s)) = [String.mk m, String.mk s] := by
  unfold pySplitColon
  have hdata : (String.mk (m ++ ':' :: s)).data = m ++ ':' :: s := rfl
  rw [hdata, pySplitAux_sep ':' s m [] hm, pySplitAux_no_sep ':' s [] hs]
  simp

theorem build_cond_iff (snap : Snapshot) :
    (truthyStr snap.title && truthyStr snap.artist && truthyInt (snapDuration snap)) = true ↔
    (truthyStr snap.title = true ∧ truthyStr snap.artist = true ∧
     truthyInt (snapDuration snap) = true) := by
  simp [Bool.and_eq_true, and_assoc]

/-! ## Claim theorems -/

/-- C1 (counterexample): the claim says the query builder returns `None`
for every snapshot whose `~length` parses to a non-positive number of
seconds.  The snapshot with `~length = "0:-5"` parses to `-5` seconds,
which is non-positive, yet the builder returns a query (Python `int`
truthiness treats every non-zero integer, negative ones included, as
truthy). -/
theorem c1_counterexample :
    parseLength "0:-5" = some (-5) ∧
    V1.build_query_from_snapshot ⟨some "a", some "b", none, some "0:-5"⟩ =
      some ⟨"a", "b", "", -5⟩ := by
  exact ⟨by decide, by decide⟩

/-- C1 (amended): the query builder returns `None` unless title, artist,
and a successfully parsed NON-ZERO duration are all available (a parsed
duration of zero yields `None`, but a negative parsed duration is
accepted); when they are available it returns the query
`{track_name: title, artist_name: artist, album_name: album or "",
duration: parsed duration}`, so the pipeline stops silently exactly when
the builder yields `None`. -/
theorem c1_corrected (snap : Snapshot) :
    ((V1.build_query_from_snapshot snap).isSome = true ↔
      (truthyStr snap.title = true ∧ truthyStr snap.artist = true ∧
       truthyInt (snapDuration snap) = true))
    ∧ (∀ q : Query, V1.build_query_from_snapshot snap = some q →
        q.track_name = snap.title.getD "" ∧
        q.artist_name = snap.artist.getD "" ∧
        q.album_name = (if truthyStr snap.album then snap.album.getD "" else "") ∧
        snapDuration snap = some q.duration ∧ ¬ q.duration = 0)
    ∧ (snapDuration snap = some 0 → V1.build_query_from_snapshot snap = none) := by
  refine ⟨?_, ?_, ?_⟩
  · constructor
    · intro h
      cases hc : (truthyStr snap.title && truthyStr snap.artist &&
          truthyInt (snapDuration snap)) with
      | false => simp [V1.build_query_from_snapshot, hc] at h
      | true => exact (build_cond_iff snap).mp hc
    · intro h
      simp [V1.build_query_from_snapshot, (build_cond_iff snap).mpr h]
  · intro q hq
    cases hc : (truthyStr snap.title && truthyStr snap.artist &&
        truthyInt (snapDuration snap)) with
    | false => simp [V1.build_query_from_snapshot, hc] at hq
    | true =>
      obtain ⟨_, _, h3⟩ := (build_cond_iff snap).mp hc
      simp only [V1.build_query_from_snapshot, hc, if_true, Option.some_inj] at hq
      subst hq
      refine ⟨rfl, rfl, rfl, ?_, ?_⟩
      · cases hd : snapDuration snap with
        | none => rw [hd] at h3; exact absurd h3 (by decide)
        | some n => simp
      · intro h0
        cases hd : snapDuration snap with
        | none => rw [hd] at h3; exact absurd h3 (by decide)
        | some n =>
          rw [hd] at h3
          rw [hd] at h0
          simp only [Option.getD_some] at h0
          rw [h0] at h3
          exact absurd h3 (by decide)
  · intro h0
    have hz : truthyInt (snapDuration snap) = false := by rw [h0]; decide
    simp [V1.build_query_from_snapshot, hz]

/-- C1 (witness): a snapshot whose `~length` parses to exactly zero
seconds is rejected by the query builder. -/
theorem c1_corrected_witness :
    V1.build_query_from_snapshot ⟨some "a", some "b", none, some "0:0"⟩ = none :=
  (c1_corrected ⟨some "a", some "b", none, some "0:0"⟩).2.2 (by decide)

/-- C2 (counterexample): the claim says every string not matching the
well-formed mm:ss shape parses to "duration unknown".  The string
`"+1:2"` is not of that shape (its minutes part is not a digit string),
yet it parses to 62 seconds, because Python `int()` accepts an optional
sign (and surrounding whitespace and underscore separators). -/
theorem c2_counterexample :
    isMMSSShape "+1:2" = false ∧ parseLength "+1:2" = some 62 := by
  exact ⟨rfl, by decide⟩

/-- C2 (amended): every length string of the well-formed mm:ss shape
(two non-empty digit strings joined by a colon) parses to exactly
minutes*60 + seconds; strings that do not split into exactly two
Python-integer-parseable parts — such as "abc", "1:2:3", and the empty
string — yield "duration unknown" (`none`) rather than an error (the
parser is a total function); however, strings whose parts use the wider
Python integer syntax (sign, whitespace, underscores) also parse, so not
every string outside the strict mm:ss shape yields "unknown". -/
theorem c2_corrected :
    (∀ m s : List Char, m ≠ [] → s ≠ [] →
      m.all Char.isDigit = true → s.all Char.isDigit = true →
      parseLength (String.mk (m ++ ':' :: s)) =
        some ((decVal m : Int) * 60 + (decVal s : Int)))
    ∧ parseLength "abc" = none
    ∧ parseLength "1:2:3" = none
    ∧ parseLength "" = none := by
  refine ⟨?_, rfl, rfl, rfl⟩
  intro m s hm hs ham has
  have hmc : ∀ c ∈ m, c ≠ ':' :=
    fun c hc => ne_colon_of_isDigit (List.all_eq_true.mp ham c hc)
  have hsc : ∀ c ∈ s, c ≠ ':' :=
    fun c hc => ne_colon_of_isDigit (List.all_eq_true.mp has c hc)
  unfold parseLength
  rw [pySplitColon_pair hmc hsc]
  simp only [parseParts]
  rw [pyInt_digits hm ham, pyInt_digits hs has]

/-- C2 (witness): the spec's end-to-end length example, "3:45", parses
to 225 seconds. -/
theorem c2_corrected_witness : parseLength "3:45" = some 225 := by
  have h := c2_corrected.1 ['3'] ['4', '5'] (by decide) (by decide) (by decide) (by decide)
  exact h.trans (by decide)

/-- C3: on a decoded response object that passed the identity check
(truthy `id`), the client prefers synced lyrics: a present non-empty
`syncedLyrics` string yields the synced variant even when `plainLyrics`
is also present; otherwise a present non-empty `plainLyrics` string
yields the plain variant; when neither field is truthy the result is
not-found. -/
theorem c3_confirmed (fields : List (String × JValue))
    (hid : getTruthy fields "id" = true) :
    (∀ s : String, jGet fields "syncedLyrics" = some (JValue.jstr s) → s ≠ "" →
      V1.parse_obj (JValue.jobj fields) = some (JValue.jstr s, true))
    ∧ (∀ p : String, optTruthy (jGet fields "syncedLyrics") = false →
      jGet fields "plainLyrics" = some (JValue.jstr p) → p ≠ "" →
      V1.parse_obj (JValue.jobj fields) = some (JValue.jstr p, false))
    ∧ (optTruthy (jGet fields "syncedLyrics") = false →
      optTruthy (jGet fields "plainLyrics") = false →
      V1.parse_obj (JValue.jobj fields) = none) := by
  refine ⟨?_, ?_, ?_⟩
  · intro s hs hn
    have ht : optTruthy (jGet fields "syncedLyrics") = true := by
      rw [hs]
      simp [optTruthy, jTruthy, hn]
    simp only [V1.parse_obj]
    rw [if_pos hid, if_pos ht, hs]
    rfl
  · intro p hns hp hn
    have htp : optTruthy (jGet fields "plainLyrics") = true := by
      rw [hp]
      simp [optTruthy, jTruthy, hn]
    simp only [V1.parse_obj]
    rw [if_pos hid, if_neg (by simp [hns]), if_pos htp, hp]
    rfl
  · intro h1 h2
    simp only [V1.parse_obj]
    rw [if_pos hid, if_neg (by simp [h1]), if_neg (by simp [h2])]

/-- C3 (witness): a response object holding both `syncedLyrics = "sy"`
and `plainLyrics = "pl"` yields the synced variant. -/
theorem c3_confirmed_witness :
    V1.parse_obj (JValue.jobj sampleFields) = some (JValue.jstr "sy", true) :=
  (c3_confirmed sampleFields rfl).1 "sy" rfl (by decide)

/-- C4: the response parser accepts a single object or an array (using
the array's first element when non-empty); an empty array, a value that
is not an object, or an object lacking a truthy `id` field all yield
not-found. -/
theorem c4_confirmed :
    V1.parse_body (JValue.jarr []) = none
    ∧ (∀ (x : JValue) (rest : List JValue),
        V1.parse_body (JValue.jarr (x :: rest)) = V1.parse_obj x)
    ∧ (∀ fields : List (String × JValue),
        V1.parse_body (JValue.jobj fields) = V1.parse_obj (JValue.jobj fields))
    ∧ (∀ v : JValue, jIsObj v = false → V1.parse_obj v = none)
    ∧ (∀ fields : List (String × JValue), getTruthy fields "id" = false →
        V1.parse_body (JValue.jobj fields) = none) := by
  refine ⟨rfl, fun x rest => rfl, fun fields => rfl, ?_, ?_⟩
  · intro v hv
    cases v <;> simp_all [V1.parse_obj, jIsObj]
  · intro fields hid
    simp only [V1.parse_body, V1.parse_obj]
    rw [if_neg (by simp [hid])]

/-- C4 (witness): a non-object response value yields not-found, and an
object lacking `id` yields not-found even when lyrics are present. -/
theorem c4_confirmed_witness :
    V1.parse_obj (JValue.jstr "x") = none ∧
    V1.parse_body (JValue.jobj [("syncedLyrics", JValue.jstr "sy")]) = none := by
  exact ⟨c4_confirmed.2.2.2.1 (JValue.jstr "x") rfl,
         c4_confirmed.2.2.2.2 [("syncedLyrics", JValue.jstr "sy")] rfl⟩

/-- C5: for every audio file path and every found lyrics string, the
sidecar writer (when the I/O itself does not raise) stores the lyrics
text verbatim at the derived path — directory of the audio file joined
with its stem plus `.lrc` if synced else `.txt` — overwriting whatever
the filesystem held there, and touching no other path; in particular the
derived path for `/music/a/Song.flac` is exactly `/music/a/Song.lrc`
(synced) or `/music/a/Song.txt` (plain). -/
theorem c5_confirmed (fs : FS) (audio_path lyrics : String) (is_synced : Bool) :
    write_sidecar fs audio_path (JValue.jstr lyrics) is_synced false
        (sidecarPath audio_path is_synced) = some lyrics
    ∧ (∀ p : String, p ≠ sidecarPath audio_path is_synced →
        write_sidecar fs audio_path (JValue.jstr lyrics) is_synced false p = fs p)
    ∧ sidecarPath "/music/a/Song.flac" true = "/music/a/Song.lrc"
    ∧ sidecarPath "/music/a/Song.flac" false = "/music/a/Song.txt" := by
  refine ⟨?_, ?_, by decide, by decide⟩
  · simp [write_sidecar]
  · intro p hp
    simp [write_sidecar, hp]

/-- C5 (witness): writing synced lyrics for `/music/a/Song.flac` over a
filesystem that already holds a file at `/music/a/Song.lrc` replaces its
contents verbatim and leaves the `.txt` path untouched. -/
theorem c5_confirmed_witness :
    write_sidecar oldFS "/music/a/Song.flac" (JValue.jstr "new lyrics") true false
        "/music/a/Song.lrc" = some "new lyrics"
    ∧ write_sidecar oldFS "/music/a/Song.flac" (JValue.jstr "new lyrics") true false
        "/music/a/Song.txt" = oldFS "/music/a/Song.txt" := by
  refine ⟨?_, ?_⟩
  · have h := (c5_confirmed oldFS "/music/a/Song.flac" "new lyrics" true).1
    rw [show sidecarPath "/music/a/Song.flac" true = "/music/a/Song.lrc" from by decide] at h
    exact h
  · exact (c5_confirmed oldFS "/music/a/Song.flac" "new lyrics" true).2.1
      "/music/a/Song.txt" (by decide)

/-- C6 (counterexample): the claim says the lyrics client never raises
to its caller, including failures during SSL context creation.  But
`ssl._create_unverified_context()` executes before the `try:` block in
both source files, so an exception there escapes
`_fetch_lyrics_from_lrclib`. -/
theorem c6_counterexample :
    V1.fetch_lyrics_from_lrclib sampleQuery sslFailFetch = Except.error () := rfl

/-- C6 (amended): provided the two statements before the `try:` block
(URL construction and SSL context creation) do not raise, the lyrics
client returns normally for every outcome, and every transport-level
failure or non-decodable response degrades to the not-found result; an
exception in those two pre-`try` statements, however, propagates to the
caller (where the worker's own catch contains it). -/
theorem c6_corrected (q : Query) (env : FetchEnv)
    (hu : env.urlencodeRaises = false) (hs : env.sslContextRaises = false) :
    exceptOk (V1.fetch_lyrics_from_lrclib q env) = true
    ∧ (env.outcome.isFailure = true →
        V1.fetch_lyrics_from_lrclib q env = Except.ok none) := by
  constructor
  · cases ho : env.outcome with
    | transportError => simp [V1.fetch_lyrics_from_lrclib, hu, hs, ho, exceptOk]
    | response body =>
      cases body <;> simp [V1.fetch_lyrics_from_lrclib, hu, hs, ho, exceptOk]
  · intro hf
    cases ho : env.outcome with
    | transportError => simp [V1.fetch_lyrics_from_lrclib, hu, hs, ho]
    | response body =>
      cases body with
      | none => simp [V1.fetch_lyrics_from_lrclib, hu, hs, ho]
      | some v => rw [ho] at hf; exact absurd hf (by simp [HttpOutcome.isFailure])

/-- C6 (witness): with the pre-`try` statements succeeding, a transport
error yields a normal not-found return. -/
theorem c6_corrected_witness :
    exceptOk (V1.fetch_lyrics_from_lrclib sampleQuery
      ⟨false, false, HttpOutcome.transportError⟩) = true
    ∧ V1.fetch_lyrics_from_lrclib sampleQuery
        ⟨false, false, HttpOutcome.transportError⟩ = Except.ok none := by
  have h := c6_corrected sampleQuery ⟨false, false, HttpOutcome.transportError⟩ rfl rfl
  exact ⟨h.1, h.2 rfl⟩

theorem worker_snd_unchanged (fs : FS) (audio : String) (snap : Snapshot)
    (renv : RunEnv) (h : fetchWriteRaise renv = true) :
    (V1.worker_for_file fs audio snap renv).2 = fs := by
  cases hbuild : V1.build_query_from_snapshot snap with
  | none => simp [V1.worker_for_file, V1.worker_body, hbuild, pyCatch]
  | some q =>
    cases hu : renv.fetchEnv.urlencodeRaises with
    | true =>
      simp [V1.worker_for_file, V1.worker_body, V1.fetch_lyrics_from_lrclib,
        hbuild, hu, pyCatch]
    | false =>
      cases hsl : renv.fetchEnv.sslContextRaises with
      | true =>
        simp [V1.worker_for_file, V1.worker_body, V1.fetch_lyrics_from_lrclib,
          hbuild, hu, hsl, pyCatch]
      | false =>
        cases ho : renv.fetchEnv.outcome with
        | transportError =>
          simp [V1.worker_for_file, V1.worker_body, V1.fetch_lyrics_from_lrclib,
            hbuild, hu, hsl, ho, pyCatch]
        | response body =>
          cases body with
          | none =>
            simp [V1.worker_for_file, V1.worker_body, V1.fetch_lyrics_from_lrclib,
              hbuild, hu, hsl, ho, pyCatch]
          | some v =>
            have hw : renv.writeRaises = true := by
              rw [fetchWriteRaise, hu, hsl, ho] at h
              simpa [HttpOutcome.isFailure] using h
            cases hp : V1.parse_body v with
            | none =>
              simp [V1.worker_for_file, V1.worker_body, V1.fetch_lyrics_from_lrclib,
                hbuild, hu, hsl, ho, hp, pyCatch]
            | some pr =>
              obtain ⟨lyrics, is_synced⟩ := pr
              cases ht : jTruthy lyrics with
              | false =>
                simp [V1.worker_for_file, V1.worker_body, V1.fetch_lyrics_from_lrclib,
                  hbuild, hu, hsl, ho, hp, ht, pyCatch]
              | true =>
                cases lyrics <;>
                  simp [V1.worker_for_file, V1.worker_body, V1.fetch_lyrics_from_lrclib,
                    hbuild, hu, hsl, ho, hp, ht, hw, pyCatch, write_sidecar]

theorem v2_handlerFs (f : FileRef) (henv : HostEnv) (renv : RunEnv) (fs : FS)
    (hf : henv.filenameRaises = false) (hm : henv.metadataRaises = false) :
    handlerFs fs (V2.handler f henv renv fs) =
      (V1.worker_for_file fs f.filename f.md renv).2 := by
  have hpe : V2.pipeline fs f.filename f.md renv =
      V1.worker_body fs f.filename f.md renv := rfl
  unfold V2.handler V2.handler_body
  rw [hf, hm]
  simp only [Bool.false_eq_true, if_false, hpe]
  cases hb : V1.worker_body fs f.filename f.md renv with
  | ok r => simp [handlerFs, V1.worker_for_file, hb, pyCatch]
  | error e => simp [handlerFs, V1.worker_for_file, hb, pyCatch]

/-- C7: for every file reference and every combination of failures at
any stage (reading path or metadata, building the query, fetching,
writing the sidecar, dispatching the worker), both copies of the
save-event handler return normally — no exception escapes to the host
application — and when any stage fails, the filesystem is untouched: the
only user-visible effect of a failure is the absence of a sidecar. -/
theorem c7_confirmed (f : FileRef) (henv : HostEnv) (renv : RunEnv) (fs : FS) :
    exceptOk (V1.handler f henv renv fs) = true
    ∧ (V1.anyRaise henv renv = true → handlerFs fs (V1.handler f henv renv fs) = fs)
    ∧ exceptOk (V2.handler f henv renv fs) = true
    ∧ (V2.anyRaise henv renv = true → handlerFs fs (V2.handler f henv renv fs) = fs) := by
  refine ⟨?_, ?_, ?_, ?_⟩
  · cases hf : henv.filenameRaises <;> cases hm : henv.metadataRaises <;>
      cases ht : henv.threadStartRaises <;> simp [V1.handler, hf, hm, ht, exceptOk]
  · intro h
    cases hf : henv.filenameRaises with
    | true => simp [V1.handler, hf, handlerFs]
    | false =>
      cases hm : henv.metadataRaises with
      | true => simp [V1.handler, hf, hm, handlerFs]
      | false =>
        cases ht : henv.threadStartRaises with
        | true => simp [V1.handler, hf, hm, ht, handlerFs]
        | false =>
          rw [V1.anyRaise, hf, hm, ht] at h
          simp only [Bool.false_or] at h
          simp only [V1.handler, hf, hm, ht, Bool.false_eq_true, if_false, handlerFs]
          exact worker_snd_unchanged fs f.filename f.md renv h
  · cases hb : V2.handler_body f henv renv fs <;> simp [V2.handler, hb, exceptOk]
  · intro h
    cases hf : henv.filenameRaises with
    | true => simp [V2.handler, V2.handler_body, hf, handlerFs]
    | false =>
      cases hm : henv.metadataRaises with
      | true => simp [V2.handler, V2.handler_body, hf, hm, handlerFs]
      | false =>
        rw [V2.anyRaise, hf, hm] at h
        simp only [Bool.false_or] at h
        rw [v2_handlerFs f henv renv fs hf hm]
        exact worker_snd_unchanged fs f.filename f.md renv h

/-- C7 (witness): a failure while reading `file.filename` is contained:
the handler returns normally and writes nothing. -/
theorem c7_confirmed_witness :
    exceptOk (V1.handler sampleFile ⟨true, false, false⟩ okRun emptyFS) = true
    ∧ handlerFs emptyFS (V1.handler sampleFile ⟨true, false, false⟩ okRun emptyFS) =
        emptyFS := by
  have h := c7_confirmed sampleFile ⟨true, false, false⟩ okRun emptyFS
  exact ⟨h.1, h.2.1 rfl⟩

/-- C8 (counterexample): the claim says no behavior is distinct between
the two copies, but they disagree on the request timeout (15 s vs 10 s)
and, on the very same input, the packaged copy performs no network call
on the caller's thread while the plugins/ copy does. -/
theorem c8_counterexample :
    V1.requestTimeout = 15 ∧ V2.requestTimeout = 10
    ∧ opsHasNet (handlerCallerOps (V1.handler sampleFile quietHost okRun emptyFS)) = false
    ∧ opsHasNet (handlerCallerOps (V2.handler sampleFile quietHost okRun emptyFS)) = true := by
  exact ⟨rfl, rfl, rfl, rfl⟩

/-- C8 (amended): the two copies agree extensionally on the query
builder, on the response parsing, on the whole fetch result, and on the
request URL; but they are not fully behaviorally equivalent: the request
timeouts differ (15 vs 10 seconds) and — per the C9 counterexample —
the packaged copy dispatches the pipeline to a background thread while
the plugins/ copy runs it on the caller's thread. -/
theorem c8_corrected :
    (∀ snap : Snapshot, V1.build_query_from_snapshot snap = V2.build_query_from_file snap)
    ∧ (∀ v : JValue, V1.parse_body v = V2.parse_body v)
    ∧ (∀ (q : Query) (env : FetchEnv),
        V1.fetch_lyrics_from_lrclib q env = V2.fetch_lyrics_from_lrclib q env)
    ∧ (∀ enc : String, V1.requestUrl enc = V2.requestUrl enc)
    ∧ (V1.requestTimeout == V2.requestTimeout) = false := by
  refine ⟨fun snap => rfl, fun v => rfl, fun q env => rfl, fun enc => ?_, rfl⟩
  rfl

/-- C9 (counterexample): the claim says the network call never executes
on the caller's thread; in the plugins/ copy it does (the handler runs
the fetch inline on the host's thread). -/
theorem c9_counterexample :
    opsHasNet (handlerCallerOps (V2.handler secondFile quietHost secondRun emptyFS)) =
      true := rfl

/-- C9 (amended): the packaged copy's handler does not block the
caller — the only operation on the caller's thread is spawning a daemon
background worker (so outstanding work does not prevent process
shutdown); no network call and no file write happens on the caller's
thread, and when the host accessors and the thread start succeed, the
whole pipeline's operations run on the spawned thread.  The plugins/
copy violates this (see the counterexample). -/
theorem c9_corrected (f : FileRef) (henv : HostEnv) (renv : RunEnv) (fs : FS) :
    (∀ op : Op, op ∈ handlerCallerOps (V1.handler f henv renv fs) →
      op = Op.spawnWorker true)
    ∧ opsHasNet (handlerCallerOps (V1.handler f henv renv fs)) = false
    ∧ opsHasWrite (handlerCallerOps (V1.handler f henv renv fs)) = false
    ∧ (henv.filenameRaises = false → henv.metadataRaises = false →
        henv.threadStartRaises = false →
        handlerSpawnedOps (V1.handler f henv renv fs) =
          (V1.worker_for_file fs f.filename f.md renv).1) := by
  cases hf : henv.filenameRaises <;> cases hm : henv.metadataRaises <;>
    cases ht : henv.threadStartRaises <;>
    simp [V1.handler, hf, hm, ht, handlerCallerOps, handlerSpawnedOps,
      opsHasNet, opsHasWrite, Op.isNetCall, Op.isWriteAttempt]

/-- C9 (witness): on a fully successful run, the caller-thread trace of
the packaged copy's handler is just the daemon-thread spawn, and the
pipeline's operations are the spawned thread's. -/
theorem c9_corrected_witness :
    Op.spawnWorker true = Op.spawnWorker true
    ∧ handlerSpawnedOps (V1.handler sampleFile quietHost okRun emptyFS) =
        (V1.worker_for_file emptyFS sampleFile.filename sampleFile.md okRun).1 := by
  have h := c9_corrected sampleFile quietHost okRun emptyFS
  refine ⟨h.1 (Op.spawnWorker true) ?_, h.2.2.2 rfl rfl rfl⟩
  rw [show handlerCallerOps (V1.handler sampleFile quietHost okRun emptyFS) =
    [Op.spawnWorker true] from rfl]
  exact List.mem_singleton_self _

theorem parse_obj_truthy (w : JValue) {v : JValue} {b : Bool}
    (h : V1.parse_obj w = some (v, b)) : jTruthy v = true := by
  cases w
  case jobj fields =>
    simp only [V1.parse_obj] at h
    by_cases hid : getTruthy fields "id" = true
    · rw [if_pos hid] at h
      by_cases hsy : optTruthy (jGet fields "syncedLyrics") = true
      · rw [if_pos hsy] at h
        cases hg : jGet fields "syncedLyrics" with
        | none => rw [hg] at hsy; exact absurd hsy (by simp [optTruthy])
        | some u =>
          rw [hg] at h hsy
          simp only [Option.getD_some, Option.some_inj, Prod.mk.injEq] at h
          rw [← h.1]
          simpa [optTruthy] using hsy
      · rw [if_neg hsy] at h
        by_cases hpl : optTruthy (jGet fields "plainLyrics") = true
        · rw [if_pos hpl] at h
          cases hg : jGet fields "plainLyrics" with
          | none => rw [hg] at hpl; exact absurd hpl (by simp [optTruthy])
          | some u =>
            rw [hg] at h hpl
            simp only [Option.getD_some, Option.some_inj, Prod.mk.injEq] at h
            rw [← h.1]
            simpa [optTruthy] using hpl
        · rw [if_neg hpl] at h
          exact Option.noConfusion h
    · rw [if_neg hid] at h
      exact Option.noConfusion h
  all_goals simp [V1.parse_obj] at h

theorem parse_obj_wire (w : JValue) {v : JValue} {b : Bool}
    (hwire : wireStringsObj w = true) (h : V1.parse_obj w = some (v, b)) :
    ∃ s : String, v = JValue.jstr s ∧ s ≠ "" := by
  cases w
  case jobj fields =>
    simp only [wireStringsObj, Bool.and_eq_true] at hwire
    simp only [V1.parse_obj] at h
    by_cases hid : getTruthy fields "id" = true
    · rw [if_pos hid] at h
      by_cases hsy : optTruthy (jGet fields "syncedLyrics") = true
      · rw [if_pos hsy] at h
        cases hg : jGet fields "syncedLyrics" with
        | none => rw [hg] at hsy; exact absurd hsy (by simp [optTruthy])
        | some u =>
          rw [hg] at h hsy
          have hu : jTruthy u = true := by simpa [optTruthy] using hsy
          have hfs := hwire.1
          simp only [fieldIsStrOrAbsent, hg] at hfs
          cases u with
          | jnull => exact absurd hu (by decide)
          | jstr s =>
            simp only [Option.getD_some, Option.some_inj, Prod.mk.injEq] at h
            refine ⟨s, h.1.symm, ?_⟩
            intro h0
            rw [h0] at hu
            exact absurd hu (by decide)
          | jbool b0 => exact Bool.noConfusion hfs
          | jnum n0 => exact Bool.noConfusion hfs
          | jarr items0 => exact Bool.noConfusion hfs
          | jobj fields0 => exact Bool.noConfusion hfs
      · rw [if_neg hsy] at h
        by_cases hpl : optTruthy (jGet fields "plainLyrics") = true
        · rw [if_pos hpl] at h
          cases hg : jGet fields "plainLyrics" with
          | none => rw [hg] at hpl; exact absurd hpl (by simp [optTruthy])
          | some u =>
            rw [hg] at h hpl
            have hu : jTruthy u = true := by simpa [optTruthy] using hpl
            have hfs := hwire.2
            simp only [fieldIsStrOrAbsent, hg] at hfs
            cases u with
            | jnull => exact absurd hu (by decide)
            | jstr s =>
              simp only [Option.getD_some, Option.some_inj, Prod.mk.injEq] at h
              refine ⟨s, h.1.symm, ?_⟩
              intro h0
              rw [h0] at hu
              exact absurd hu (by decide)
            | jbool b0 => exact Bool.noConfusion hfs
            | jnum n0 => exact Bool.noConfusion hfs
            | jarr items0 => exact Bool.noConfusion hfs
            | jobj fields0 => exact Bool.noConfusion hfs
        · rw [if_neg hpl] at h
          exact Option.noConfusion h
    · rw [if_neg hid] at h
      exact Option.noConfusion h
  all_goals simp [V1.parse_obj] at h

theorem parse_body_truthy {v : JValue} {b : Bool} : ∀ {body : JValue},
    V1.parse_body body = some (v, b) → jTruthy v = true
  | JValue.jnull, h => parse_obj_truthy JValue.jnull h
  | JValue.jbool b0, h => parse_obj_truthy (JValue.jbool b0) h
  | JValue.jnum n0, h => parse_obj_truthy (JValue.jnum n0) h
  | JValue.jstr s0, h => parse_obj_truthy (JValue.jstr s0) h
  | JValue.jarr [], h => by simp [V1.parse_body] at h
  | JValue.jarr (x :: _), h => parse_obj_truthy x h
  | JValue.jobj fields, h => parse_obj_truthy (JValue.jobj fields) h

theorem parse_body_wire {v : JValue} {b : Bool} : ∀ {body : JValue},
    wireStrings body = true → V1.parse_body body = some (v, b) →
    ∃ s : String, v = JValue.jstr s ∧ s ≠ ""
  | JValue.jnull, hwire, h => parse_obj_wire JValue.jnull hwire h
  | JValue.jbool b0, hwire, h => parse_obj_wire (JValue.jbool b0) hwire h
  | JValue.jnum n0, hwire, h => parse_obj_wire (JValue.jnum n0) hwire h
  | JValue.jstr s0, hwire, h => parse_obj_wire (JValue.jstr s0) hwire h
  | JValue.jarr [], _, h => by simp [V1.parse_body] at h
  | JValue.jarr (x :: _), hwire, h => parse_obj_wire x hwire h
  | JValue.jobj fields, hwire, h => parse_obj_wire (JValue.jobj fields) hwire h

theorem posixJoin_ext (a s e : String) :
    ∃ front : String, posixJoin a (s ++ e) = front ++ e := by
  unfold posixJoin
  by_cases h1 : startsWithSlash (s ++ e) = true
  · rw [if_pos h1]
    exact ⟨s, rfl⟩
  · rw [if_neg h1]
    by_cases h2 : (a = "" || endsWithSlash a) = true
    · rw [if_pos h2]
      exact ⟨a ++ s, (String.append_assoc a s e).symm⟩
    · rw [if_neg h2]
      exact ⟨a ++ "/" ++ s, (String.append_assoc (a ++ "/") s e).symm⟩

theorem sidecarPath_ext (audio : String) (synced : Bool) :
    ∃ front : String,
      sidecarPath audio synced = front ++ (if synced then ".lrc" else ".txt") := by
  unfold sidecarPath
  exact posixJoin_ext (posixSplit audio).1 (posixSplitextBase (posixSplit audio).2).1
    (if synced then ".lrc" else ".txt")

/-- C10 (counterexample): the claim says the fetch result is always
`(None, None)` or a pair of a non-empty STRING and a boolean; but when
the server returns a truthy non-string `syncedLyrics` (here the number
42), the code returns that value paired with `True`. -/
theorem c10_counterexample :
    V1.fetch_lyrics_from_lrclib sampleQuery nonStrFetch =
      Except.ok (some (JValue.jnum 42, true))
    ∧ jIsStr (JValue.jnum 42) = false := ⟨rfl, rfl⟩

/-- C10 (amended): every normally returned fetch result is either the
not-found pair or a pair of a TRUTHY JSON value and a genuine boolean;
when the response conforms to the documented wire protocol (lyrics
fields are strings when present), that value is moreover a non-empty
string; and independently the sidecar path always carries exactly the
`.lrc` extension when synced and `.txt` otherwise. -/
theorem c10_corrected (q : Query) (env : FetchEnv) (r : Option (JValue × Bool))
    (hr : V1.fetch_lyrics_from_lrclib q env = Except.ok r) :
    (∀ (v : JValue) (b : Bool), r = some (v, b) → jTruthy v = true)
    ∧ (∀ (body v : JValue) (b : Bool),
        env.outcome = HttpOutcome.response (some body) → wireStrings body = true →
        r = some (v, b) → ∃ s : String, v = JValue.jstr s ∧ s ≠ "")
    ∧ (∀ (audio : String) (synced : Bool), ∃ front : String,
        sidecarPath audio synced = front ++ (if synced then ".lrc" else ".txt")) := by
  refine ⟨?_, ?_, fun audio synced => sidecarPath_ext audio synced⟩
  · intro v b hv
    subst hv
    cases hu : env.urlencodeRaises with
    | true => simp [V1.fetch_lyrics_from_lrclib, hu] at hr
    | false =>
      cases hsl : env.sslContextRaises with
      | true => simp [V1.fetch_lyrics_from_lrclib, hu, hsl] at hr
      | false =>
        cases ho : env.outcome with
        | transportError => simp [V1.fetch_lyrics_from_lrclib, hu, hsl, ho] at hr
        | response body =>
          cases body with
          | none => simp [V1.fetch_lyrics_from_lrclib, hu, hsl, ho] at hr
          | some w =>
            simp only [V1.fetch_lyrics_from_lrclib, hu, hsl, ho, Bool.false_eq_true,
              if_false, Except.ok.injEq] at hr
            exact parse_body_truthy hr
  · intro body v b ho hwire hv
    subst hv
    cases hu : env.urlencodeRaises with
    | true => simp [V1.fetch_lyrics_from_lrclib, hu] at hr
    | false =>
      cases hsl : env.sslContextRaises with
      | true => simp [V1.fetch_lyrics_from_lrclib, hu, hsl] at hr
      | false =>
        simp only [V1.fetch_lyrics_from_lrclib, hu, hsl, ho, Bool.false_eq_true,
          if_false, Except.ok.injEq] at hr
        exact parse_body_wire hwire hr

/-- C10 (witness): a successful wire-conformant fetch yields a truthy
non-empty string. -/
theorem c10_corrected_witness :
    jTruthy (JValue.jstr "sy") = true
    ∧ (∃ s : String, JValue.jstr "sy" = JValue.jstr s ∧ s ≠ "") := by
  have h := c10_corrected sampleQuery okFetch (some (JValue.jstr "sy", true)) rfl
  exact ⟨h.1 (JValue.jstr "sy") true rfl, h.2.1 sampleBody (JValue.jstr "sy") true rfl rfl rfl⟩

end Lrclib
